import Mathlib

/-!
# Verification of the tooltip engine (tippy) against its specification

Shallow embedding of the tooltip engine bundled in this repository:

* `src/website/src/components/Framework.js` — the v2 UMD bundle: the `Tippy`
  instance class (`show`, `hide`, `destroy`, and the private `_enter`,
  `_leave`, `_clearDelayTimeouts`, `_setFollowCursorListener` helpers),
  `createTrigger`, `getIndividualOptions`, `cursorIsOutsideInteractiveBorder`.
* `src/src/js/utils.js` — `addEventListeners`, `cursorIsOutsideInteractiveBorder`,
  `polyfillVirtualReferenceProps`.
* `src/src/js/reference.js` — `polyfillElementPrototypeProperties`.
* `src/unnamed/part_004` — the v3 `tippy` factory with eager option validation.

The single-threaded, timer-driven instance is modelled as a record of its
observable state; each entry point is a pure function from an instance to an
instance together with the list of observable events (user hooks fired, the
`destroyed` flag being set) it emits, in order.  Pending `setTimeout` timers
are modelled as armed/disarmed flags together with explicit "the timer fires"
steps that run the stored callback only while the flag is armed — `clearTimeout`
disarms the flag, so a cleared timer's callback can never run.
-/

namespace TippyV2

/-- Observable events emitted by instance entry points, in program order:
the four user hooks plus the moment `state.destroyed` is set to `true`. -/
inductive Ev where
  | onShow
  | onShown
  | onHide
  | onHidden
  | destroyedSet
deriving DecidableEq, Repr

/-- The `delay` / `duration` options accept a single number or an `[in, out]`
pair (`Array.isArray(value) ? value[index] : value`). -/
inductive NumPair where
  | single (n : Nat)
  | pair (a b : Nat)
deriving DecidableEq, Repr

/-- `Array.isArray(v) ? v[0] : v` — the show-side value. -/
def NumPair.fst : NumPair → Nat
  | .single n => n
  | .pair a _ => a

/-- `Array.isArray(v) ? v[1] : v` — the hide-side value. -/
def NumPair.snd : NumPair → Nat
  | .single n => n
  | .pair _ b => b

/-- The option fields of `defaults` (Framework.js lines 178-217) that the
embedded entry points read.  `wait` is not a key of `defaults` and is modelled
as absent (falsy), its default. -/
structure Options where
  delay : NumPair := .single 0
  duration : NumPair := .pair 350 300
  dynamicTitle : Bool := false
  followCursor : Bool := false
  interactive : Bool := false
  sticky : Bool := false
  trigger : String := "mouseenter focus"
deriving DecidableEq, Repr

/-- `this.state` of a `Tippy` instance (Framework.js lines 817-821). -/
structure TState where
  destroyed : Bool := false
  visible : Bool := false
  enabled : Bool := true
deriving DecidableEq, Repr

/-- One `Tippy` instance: its public `state`, its options, the private
closure store `this._(key)` (timers, `isPreparingToShow`, the follow-cursor
listener), its listener bookkeeping, and the facts about the surrounding DOM
that the entry points branch on. -/
structure Instance where
  state : TState := {}
  options : Options := {}
  /-- `this._(key).isPreparingToShow`. -/
  isPreparingToShow : Bool := false
  /-- `this._(key).showTimeout` is pending (armed `setTimeout` for `show`). -/
  showTimeout : Bool := false
  /-- `this._(key).hideTimeout` is pending (armed `setTimeout` for `hide`). -/
  hideTimeout : Bool := false
  /-- the follow-cursor `mousemove` listener is attached to the document. -/
  followCursorListenerOn : Bool := false
  /-- `document.documentElement.contains(reference)`. -/
  referenceAttached : Bool := true
  /-- `reference.refObj` — the reference is a polyfilled virtual object. -/
  referenceIsVirtual : Bool := false
  /-- `reference.getAttribute('data-original-title')` is truthy. -/
  referenceHasOriginalTitle : Bool := true
  /-- `options.appendTo.contains(popper)`. -/
  popperMounted : Bool := false
  /-- `this.popperInstance` is non-null. -/
  popperInstance : Bool := false
  /-- count of `this.listeners` entries still registered on the reference. -/
  listenerCount : Nat := 0
  /-- count of live `this._(key).mutationObservers`. -/
  mutationObserverCount : Nat := 0
deriving DecidableEq, Repr

/-- `hide(duration)` (Framework.js lines 960-1019), synchronous part: guard on
destroyed/disabled, fire `options.onHide`, set `popper.style.visibility` and
`state.visible = false`.  The trailing `defer(...)` body (detach of the
positioner's listeners, removal of the popper, `onHidden`) runs in a later
macrotask and is outside the synchronous step modelled here. -/
def hide (t : Instance) : Instance × List Ev :=
  if t.state.destroyed || !t.state.enabled then (t, [])
  else
    ({ t with state := { t.state with visible := false } }, [.onHide])

/-- `destroy()` (Framework.js lines 1027-1059): early return when already
destroyed; `hide(0)` first when visible; remove every registered listener,
restore the title attribute, dispose the popper instance, disconnect the
mutation observers; set `state.destroyed = true` last. -/
def destroy (t : Instance) : Instance × List Ev :=
  if t.state.destroyed then (t, [])
  else
    let r := if t.state.visible then hide t else (t, [])
    let t1 := { r.1 with listenerCount := 0, popperInstance := false,
                         mutationObserverCount := 0 }
    ({ t1 with state := { t1.state with destroyed := true } }, r.2 ++ [.destroyedSet])

/-- `show(duration)` (Framework.js lines 860-950), synchronous part: guard on
destroyed/disabled; the `dynamicTitle` empty-title guard; destroy instead of
showing when a non-virtual reference is detached from the document; otherwise
fire `options.onShow`, set `popper.style.visibility` and `state.visible = true`
and mount (`_mount` appends the popper and creates the popper instance).  The
`_mount` callback (position update, sticky mode, `onShown`) fires after the
positioner's asynchronous layout pass and is outside this synchronous step. -/
def show' (t : Instance) : Instance × List Ev :=
  if t.state.destroyed || !t.state.enabled then (t, [])
  else if t.options.dynamicTitle && !t.referenceHasOriginalTitle then (t, [])
  else if !t.referenceIsVirtual && !t.referenceAttached then destroy t
  else
    ({ t with state := { t.state with visible := true },
              popperMounted := true, popperInstance := true }, [.onShow])

/-- `_clearDelayTimeouts()` (Framework.js lines 1338-1345): `clearTimeout` on
both the show and the hide timer — both pending flags are disarmed. -/
def clearDelayTimeouts (t : Instance) : Instance :=
  { t with showTimeout := false, hideTimeout := false }

/-- `_enter(event)` (Framework.js lines 1081-1113): clear both delay timers;
return if already visible; set `isPreparingToShow`; attach the follow-cursor
listener when `followCursor` is set and the user is not on touch; then either
arm the show timer for `delay[0]` milliseconds or call `show()` synchronously
when the delay is zero.  (`options.wait` is not among the defaults and is
modelled as unset.) -/
def enter (usingTouch : Bool) (t : Instance) : Instance × List Ev :=
  let t := clearDelayTimeouts t
  if t.state.visible then (t, [])
  else
    let t := { t with isPreparingToShow := true }
    let t := if t.options.followCursor && !usingTouch then
               { t with followCursorListenerOn := true } else t
    if t.options.delay.fst ≠ 0 then ({ t with showTimeout := true }, [])
    else show' t

/-- `_leave()` (Framework.js lines 1120-1139): clear both delay timers; return
if not visible; clear `isPreparingToShow`; then either arm the hide timer for
`delay[1]` milliseconds or call `hide()` synchronously when the delay is
zero. -/
def leave (t : Instance) : Instance × List Ev :=
  let t := clearDelayTimeouts t
  if !t.state.visible then (t, [])
  else
    let t := { t with isPreparingToShow := false }
    if t.options.delay.snd ≠ 0 then ({ t with hideTimeout := true }, [])
    else hide t

/-- The show delay timer fires: a pending `setTimeout(function () {
_this4.show(); }, delay)` runs only while still armed — `clearTimeout`
disarms it, in which case this step is a no-op. -/
def fireShowTimeout (t : Instance) : Instance × List Ev :=
  if t.showTimeout then show' { t with showTimeout := false }
  else (t, [])

/-- The hide delay timer fires: the stored callback re-checks
`state.visible` before calling `hide()`; a cleared timer is a no-op. -/
def fireHideTimeout (t : Instance) : Instance × List Ev :=
  if t.hideTimeout then
    let t := { t with hideTimeout := false }
    if !t.state.visible then (t, []) else hide t
  else (t, [])

end TippyV2

namespace TippyV2

/-- C1 witness input: a fresh hidden instance whose `delay` option is the
single number 100 (non-zero delay-in). -/
def delayedInstance : Instance :=
  { options := { delay := .single 100 } }

/-- C2 counterexample input: an instance that is currently visible but
disabled (reachable by `show()` followed by `disable()`). -/
def visibleDisabledInstance : Instance :=
  { state := { destroyed := false, visible := true, enabled := false } }

/-- C4 counterexample input: a disabled instance whose non-virtual reference
has been detached from the document. -/
def detachedDisabledInstance : Instance :=
  { state := { destroyed := false, visible := false, enabled := false },
    referenceAttached := false, referenceIsVirtual := false }

end TippyV2

namespace TippyV3

/-- Modelled from the spec: the key set of the v3 `Defaults` option record.
`src/unnamed/part_004` imports `Defaults` from a `./defaults` module that is
not under `src/`; the spec's data model names the recognized options
"trigger set, delay pair (in/out), duration pair (in/out), interactive flag,
interactive border width, follow-cursor mode, sticky flag, hide-on-click
mode, multiple flag, append target, content". -/
def DefaultsKeys : List String :=
  ["trigger", "delay", "duration", "interactive", "interactiveBorder",
   "followCursor", "sticky", "hideOnClick", "multiple", "appendTo", "content"]

/-- A target specification accepted by the factory: a selector (with the
elements it matches), a single element, a list of elements, or a plain
object (virtual reference). -/
inductive Targets where
  | selector (matched : List Nat)
  | element (e : Nat)
  | elements (l : List Nat)
  | plainObject
deriving DecidableEq, Repr

/-- A concrete reference an instance is built on: a DOM element or a
polyfilled virtual reference (`isVirtual = true`). -/
inductive Ref where
  | elem (id : Nat)
  | virtualRef
deriving DecidableEq, Repr

/-- `isPlainObject(targets)` (`{}.toString`-based plain-object test). -/
def isPlainObject : Targets → Bool
  | .plainObject => true
  | _ => false

/-- `getArrayOfElements(targets)`: an element or plain object becomes a
one-element list, a NodeList/array is taken as is, a selector yields its
matches. -/
def getArrayOfElements : Targets → List Ref
  | .selector matched => matched.map .elem
  | .element e => [.elem e]
  | .elements l => l.map .elem
  | .plainObject => [.virtualRef]

/-- The merged option set `{ ...Defaults, ...suppliedOptions }`, one entry
per recognized key; `none` stands for the (unmodelled) default value. -/
def mergedOptions (supplied : List (String × String)) :
    List (String × Option String) :=
  DefaultsKeys.map fun k => (k, (supplied.find? (·.1 = k)).map (·.2))

/-- Modelled from the spec: Instance construction (`createTippy`, imported by
`src/unnamed/part_004` from a module not under `src/`).  The claim needs only
that exactly one Instance record is built per reference, after validation. -/
structure Inst where
  reference : Ref
  options : List (String × Option String)
deriving DecidableEq, Repr

/-- The collection object returned by the factory
(`{ targets, options, references, instances, destroyAll }`). -/
structure Collection where
  references : List Ref
  instances : List Inst
  options : List (String × Option String)
deriving DecidableEq, Repr

/-- `tippy(targets, suppliedOptions, one)` (`src/unnamed/part_004` lines
104-142): every key of the caller-supplied options object is validated
against `Defaults` first — `throw new Error('tippy: ' + key + ' is not a
valid option')` at the first unknown key — before options are merged, a
plain-object target is polyfilled, and one instance per reference is built. -/
def tippy (targets : Targets) (suppliedOptions : List (String × String))
    (one : Bool) : Except String Collection :=
  match suppliedOptions.find? (fun kv => decide (kv.1 ∉ DefaultsKeys)) with
  | some kv => .error ("tippy: " ++ kv.1 ++ " is not a valid option")
  | none =>
    let options := mergedOptions suppliedOptions
    let references := getArrayOfElements targets
    let instances :=
      (if one && references ≠ [] then references.take 1 else references).map
        fun r => Inst.mk r options
    .ok { references := references, instances := instances, options := options }

end TippyV3


/-! Character-list models of the JavaScript string primitives the engine
uses (`String.prototype.split`, `trim`, `charAt(0)`); written structurally
over `List Char` so that concrete values reduce in the kernel.  `trim` is
modelled for the space character, the only whitespace in the engine's
inputs. -/

namespace JsStr

/-- `split(sep)` worker: accumulate the current field, emit on separator. -/
def splitAux (sep : Char) : List Char → List Char → List String
  | [], acc => [String.mk acc.reverse]
  | c :: rest, acc =>
    if c = sep then String.mk acc.reverse :: splitAux sep rest []
    else splitAux sep rest (c :: acc)

/-- `s.split(sep)` — like JavaScript, empty fields are kept. -/
def split (sep : Char) (s : String) : List String :=
  splitAux sep s.data []

/-- `s.trim()` (spaces only). -/
def trim (s : String) : String :=
  String.mk (((s.data.dropWhile (· = ' ')).reverse.dropWhile (· = ' ')).reverse)

/-- `s.charAt(0)` as an `Option` (`none` for the empty string). -/
def firstChar (s : String) : Option Char :=
  s.data.head?

end JsStr

namespace Triggers

/-- The three handlers `_getEventListeners()` returns in the v2 bundle
(Framework.js lines 1147-1213). -/
inductive V2Handler where
  | handleTrigger
  | handleMouseleave
  | handleBlur
deriving DecidableEq, Repr

/-- `createTrigger(eventType, reference, handlers, touchHold)` (Framework.js
lines 385-428): the ordered list of `addEventListener` registrations made on
the reference for one trigger name; `browser.supportsTouch` is passed
explicitly.  `"manual"` returns before any registration. -/
def createTrigger (supportsTouch : Bool) (eventType : String)
    (touchHold : Bool) : List (String × V2Handler) :=
  if eventType = "manual" then []
  else
    [(eventType, .handleTrigger)]
    ++ (if eventType = "mouseenter" then
          (if supportsTouch && touchHold then
            [("touchstart", .handleTrigger), ("touchend", .handleMouseleave)]
           else [])
          ++ [("mouseleave", .handleMouseleave)]
        else [])
    ++ (if eventType = "focus" then [("blur", .handleBlur)] else [])

/-- The five handlers passed to `addEventListeners` in
`src/src/js/utils.js` (line 219). -/
inductive UtilsHandler where
  | onTrigger
  | onMouseLeave
  | onBlur
  | onDelegateShow
  | onDelegateHide
deriving DecidableEq, Repr

/-- `browser.isIE ? 'focusout' : 'blur'` (utils.js line 249). -/
def blurEventName (isIE : Bool) : String :=
  if isIE then "focusout" else "blur"

/-- The `on(...)` calls `addEventListeners` (utils.js lines 216-266) makes
for a single trigger name.  The `switch` statements there have no `break`:
in direct mode the `mouseenter` case falls through into the `focus` case
(registering the blur handler too), and in delegated mode `mouseenter` falls
through `focus` into `click` (registering `onDelegateShow` under the
`mouseenter` event name) and `focus` falls through into `click`. -/
def addEventListenersChunk (isIE : Bool) (hasTarget : Bool)
    (eventType : String) : List (String × UtilsHandler) :=
  if eventType = "manual" then []
  else if !hasTarget then
    [(eventType, .onTrigger)]
    ++ (if eventType = "mouseenter" then
          [("mouseleave", .onMouseLeave), (blurEventName isIE, .onBlur)]
        else if eventType = "focus" then [(blurEventName isIE, .onBlur)]
        else [])
  else
    (if eventType = "mouseenter" then
      [("mouseover", .onDelegateShow), ("mouseout", .onDelegateHide),
       ("focusin", .onDelegateShow), ("focusout", .onDelegateHide),
       (eventType, .onDelegateShow)]
     else if eventType = "focus" then
      [("focusin", .onDelegateShow), ("focusout", .onDelegateHide),
       (eventType, .onDelegateShow)]
     else if eventType = "click" then [(eventType, .onDelegateShow)]
     else [])

/-- All `reference.addEventListener` registrations `addEventListeners`
performs for a trigger option: one chunk per space-separated trigger name. -/
def addEventListenersRegs (isIE : Bool) (hasTarget : Bool)
    (trigger : String) : List (String × UtilsHandler) :=
  ((JsStr.split ' ' (JsStr.trim trigger)).map
    (addEventListenersChunk isIE hasTarget)).flatten

/-- The array `addEventListeners` returns: the reduce concatenates the
shared `listeners` array (all registrations so far) once per non-manual
trigger name, so later names duplicate earlier entries. -/
def addEventListenersReturn (isIE : Bool) (hasTarget : Bool)
    (trigger : String) : List (String × UtilsHandler) :=
  ((JsStr.split ' ' (JsStr.trim trigger)).foldl
    (fun st eventType =>
      if eventType = "manual" then st
      else
        let regs := st.1 ++ addEventListenersChunk isIE hasTarget eventType
        (regs, st.2 ++ regs))
    (([], []) : List (String × UtilsHandler) × List (String × UtilsHandler))).2

end Triggers

namespace Border

/-- The four core placements. -/
inductive Side where
  | top
  | bottom
  | left
  | right
deriving DecidableEq, Repr

/-- The placement's attribute string. -/
def Side.str : Side → String
  | .top => "top"
  | .bottom => "bottom"
  | .left => "left"
  | .right => "right"

/-- `popper.getBoundingClientRect()`, the fields the border test reads. -/
structure ClientRect where
  top : ℚ
  bottom : ℚ
  left : ℚ
  right : ℚ
deriving DecidableEq, Repr

/-- `getPopperPlacement(popper)` — `x-placement` without the shifting
suffix (`split('-')[0]`; utils.js lines 625-626). -/
def getPopperPlacement (xPlacement : String) : String :=
  (JsStr.split '-' xPlacement).headD ""

/-- The `exceeds` record built by `cursorIsOutsideInteractiveBorder`. -/
structure Exceeds where
  top : Bool
  bottom : Bool
  left : Bool
  right : Bool
deriving DecidableEq, Repr

/-- `cursorIsOutsideInteractiveBorder(event, popper, options)` (utils.js
lines 580-613 and, identically, Framework.js lines 572-608): `true` when no
`x-placement` attribute is set (absent or empty, both falsy); otherwise each
side's gap between the cursor and the bounding box is compared against
`interactiveBorder`, except that the side matching the popper's placement is
compared against `interactiveBorder + distance`. -/
def cursorIsOutsideInteractiveBorder (xPlacement : Option String)
    (clientX clientY : ℚ) (rect : ClientRect)
    (interactiveBorder distance : ℚ) : Bool :=
  match xPlacement with
  | none => true
  | some xp =>
    if xp = "" then true
    else
      let placement := getPopperPlacement xp
      let borderWithDistance := interactiveBorder + distance
      let ex : Exceeds :=
        { top := decide (rect.top - clientY > interactiveBorder)
          bottom := decide (clientY - rect.bottom > interactiveBorder)
          left := decide (rect.left - clientX > interactiveBorder)
          right := decide (clientX - rect.right > interactiveBorder) }
      let ex :=
        if placement = "top" then
          { ex with top := decide (rect.top - clientY > borderWithDistance) }
        else if placement = "bottom" then
          { ex with bottom := decide (clientY - rect.bottom > borderWithDistance) }
        else if placement = "left" then
          { ex with left := decide (rect.left - clientX > borderWithDistance) }
        else if placement = "right" then
          { ex with right := decide (clientX - rect.right > borderWithDistance) }
        else ex
      ex.top || ex.bottom || ex.left || ex.right

/-- Spec-side reading: how far the cursor lies beyond the bounding box on a
given side. -/
def cursorGapBeyond (s : Side) (clientX clientY : ℚ) (rect : ClientRect) : ℚ :=
  match s with
  | .top => rect.top - clientY
  | .bottom => clientY - rect.bottom
  | .left => rect.left - clientX
  | .right => clientX - rect.right

/-- Spec-side reading: the hide threshold for a side — the plain border
width, except `interactiveBorder + distance` on the side matching the
current placement. -/
def sideThreshold (placement s : Side) (interactiveBorder distance : ℚ) : ℚ :=
  if s = placement then interactiveBorder + distance else interactiveBorder

end Border

namespace FollowCursor

/-- The fixed padding constant of the follow-cursor listener
(Framework.js line 1369). -/
def PADDING : ℚ := 5

/-- The inputs the follow-cursor `mousemove` listener reads for one event:
the core placement, the event's page coordinates, the code's
`Math.round(popper.offsetWidth / 2)` / `Math.round(popper.offsetHeight / 2)`
values, `options.offset`, and the current document width. -/
structure MoveInput where
  placement : String
  pageX : ℚ
  pageY : ℚ
  halfPopperWidth : ℚ
  halfPopperHeight : ℚ
  offset : ℚ
  pageWidth : ℚ
deriving DecidableEq, Repr

/-- `_setFollowCursorListener` (Framework.js lines 1352-1416), the position
computation of one `mousemove`: the `translate3d` x/y pair.  The `switch`
assigns x/y only for the four core placements (`none` models the untouched
`undefined`), and the horizontal clamping against
`[PADDING, pageWidth - PADDING - 2 * halfPopperWidth]` is applied only when
the placement is `top` or `bottom`. -/
def followCursorXY (m : MoveInput) : Option ℚ × Option ℚ :=
  let x0 : Option ℚ :=
    if m.placement = "top" then some (m.pageX - m.halfPopperWidth + m.offset)
    else if m.placement = "bottom" then some (m.pageX - m.halfPopperWidth + m.offset)
    else if m.placement = "left" then some (m.pageX - 2 * m.halfPopperWidth)
    else if m.placement = "right" then some (m.pageX + 5)
    else none
  let y0 : Option ℚ :=
    if m.placement = "top" then some (m.pageY - 2 * m.halfPopperHeight)
    else if m.placement = "bottom" then some (m.pageY + 10)
    else if m.placement = "left" then some (m.pageY - m.halfPopperHeight + m.offset)
    else if m.placement = "right" then some (m.pageY - m.halfPopperHeight + m.offset)
    else none
  let isRightOverflowing :=
    m.pageX + PADDING + m.halfPopperWidth + m.offset > m.pageWidth
  let isLeftOverflowing :=
    m.pageX - PADDING - m.halfPopperWidth + m.offset < 0
  let x1 :=
    if m.placement = "top" ∨ m.placement = "bottom" then
      let xr := if isRightOverflowing then
                  some (m.pageWidth - PADDING - 2 * m.halfPopperWidth)
                else x0
      if isLeftOverflowing then some PADDING else xr
    else x0
  (x1, y0)

/-- C8 counterexample input: a right-placed follow-cursor popper, cursor far
to the right of a 1000px-wide page. -/
def rightPlacementMove : MoveInput :=
  { placement := "right", pageX := 2000, pageY := 300,
    halfPopperWidth := 50, halfPopperHeight := 20, offset := 0,
    pageWidth := 1000 }

/-- C8 witness input: a top-placed follow-cursor popper in the middle of a
1000px-wide page. -/
def topPlacementMove : MoveInput :=
  { placement := "top", pageX := 500, pageY := 300,
    halfPopperWidth := 50, halfPopperHeight := 20, offset := 0,
    pageWidth := 1000 }

end FollowCursor

namespace Convert

/-- A JavaScript value as it appears in the option-conversion pipeline. -/
inductive JsVal where
  | str (s : String)
  | num (q : ℚ)
  | bool (b : Bool)
  | arr (elems : List JsVal)
  | null
deriving Repr

/-- The numeric value of a digit run. -/
def natOfDigits (ds : List Char) : ℕ :=
  ds.foldl (fun n c => 10 * n + (c.toNat - 48)) 0

/-- A hexadecimal digit. -/
def isHexDigitChar (c : Char) : Bool :=
  c.isDigit || ('a' ≤ c && c ≤ 'f') || ('A' ≤ c && c ≤ 'F')

/-- The numeric value of one hexadecimal digit. -/
def hexDigitValue (c : Char) : ℕ :=
  if c.isDigit then c.toNat - 48
  else if 'a' ≤ c then c.toNat - 87
  else c.toNat - 55

/-- The numeric value of a hexadecimal digit run. -/
def natOfHexDigits (ds : List Char) : ℕ :=
  ds.foldl (fun n c => 16 * n + hexDigitValue c) 0

/-- The optional exponent suffix after a decimal mantissa: `e`/`E`, an
optional sign, then digits.  When no digits follow, the suffix is not
consumed (`parseFloat("1e") === 1`); here `rest2` is the input just after
the `e`/`E` and `fallback` the input including it. -/
def parseExponentPart (m : ℚ) (fallback rest2 : List Char) :
    ℚ × List Char :=
  let signed : Bool × List Char :=
    match rest2 with
    | '-' :: r => (true, r)
    | '+' :: r => (false, r)
    | r => (false, r)
  let expDigits := signed.2.takeWhile Char.isDigit
  if expDigits.isEmpty then (m, fallback)
  else
    let k := natOfDigits expDigits
    (if signed.1 then m / (10 : ℚ) ^ k else m * (10 : ℚ) ^ k,
     signed.2.dropWhile Char.isDigit)

/-- Parse an unsigned decimal numeral (`digits`, `digits.digits`,
`.digits`, with an optional `e`/`E` exponent) off the front of a character
list, returning the value and the unconsumed rest.  This is the executable
model of the host's decimal-number syntax shared by the `Number`/`isFinite`
and `parseFloat` primitives below. -/
def parseUnsignedDecimal (cs : List Char) : Option (ℚ × List Char) :=
  let intDigits := cs.takeWhile Char.isDigit
  let rest1 := cs.dropWhile Char.isDigit
  let mantissa : Option (ℚ × List Char) :=
    match rest1 with
    | '.' :: rest2 =>
      let fracDigits := rest2.takeWhile Char.isDigit
      let rest3 := rest2.dropWhile Char.isDigit
      if intDigits.isEmpty && fracDigits.isEmpty then none
      else some ((natOfDigits intDigits : ℚ)
        + (natOfDigits fracDigits : ℚ) / ((10 : ℚ) ^ fracDigits.length), rest3)
    | _ =>
      if intDigits.isEmpty then none
      else some ((natOfDigits intDigits : ℚ), rest1)
  match mantissa with
  | none => none
  | some (m, rest) =>
    match rest with
    | 'e' :: rest2 => some (parseExponentPart m rest rest2)
    | 'E' :: rest2 => some (parseExponentPart m rest rest2)
    | _ => some (m, rest)

/-- Parse an optionally signed decimal numeral off the front of a
character list. -/
def parseSignedDecimal (cs : List Char) : Option (ℚ × List Char) :=
  match cs with
  | '-' :: rest => (parseUnsignedDecimal rest).map fun r => (-r.1, r.2)
  | '+' :: rest => parseUnsignedDecimal rest
  | _ => parseUnsignedDecimal cs

/-- Model of the host's `isFinite(s)` gate, i.e. `Number(s)` yielding a
finite value: the empty or all-whitespace string is `0`; a `0x`/`0X` string
of hex digits is the hex integer (with no sign and nothing after it); and
otherwise the whole trimmed string must be a signed decimal numeral.
`"Infinity"`, `"-Infinity"` and `"NaN"` parse to non-finite values and so
yield `none`. -/
def jsStringToFiniteNumber (s : String) : Option ℚ :=
  match (JsStr.trim s).data with
  | [] => some 0
  | '0' :: 'x' :: ds =>
    if !ds.isEmpty && ds.all isHexDigitChar then some ((natOfHexDigits ds : ℚ))
    else none
  | '0' :: 'X' :: ds =>
    if !ds.isEmpty && ds.all isHexDigitChar then some ((natOfHexDigits ds : ℚ))
    else none
  | cs =>
    match parseSignedDecimal cs with
    | some (q, []) => some q
    | _ => none

/-- Model of host `parseFloat(s)`: the longest signed-decimal prefix's
value.  `parseFloat` has no hex syntax: `parseFloat("0x10")` reads the
prefix `0` and returns `0`. -/
def jsParseFloat (s : String) : Option ℚ :=
  (parseSignedDecimal (JsStr.trim s).data).map (·.1)

/-- Skip JSON whitespace (spaces suffice for the engine's inputs). -/
def jsonSkipSpaces (cs : List Char) : List Char :=
  cs.dropWhile (· = ' ')

mutual

/-- One JSON value off the front of a character list (fuel-indexed model of
host `JSON.parse`: literals, numbers, escape-free strings, arrays). -/
def jsonParseVal : ℕ → List Char → Option (JsVal × List Char)
  | 0, _ => none
  | fuel + 1, cs =>
    match jsonSkipSpaces cs with
    | 't' :: 'r' :: 'u' :: 'e' :: rest => some (.bool true, rest)
    | 'f' :: 'a' :: 'l' :: 's' :: 'e' :: rest => some (.bool false, rest)
    | 'n' :: 'u' :: 'l' :: 'l' :: rest => some (.null, rest)
    | '"' :: rest =>
      let lit := rest.takeWhile (· ≠ '"')
      match rest.dropWhile (· ≠ '"') with
      | '"' :: rest2 => some (.str (String.mk lit), rest2)
      | _ => none
    | '[' :: rest =>
      match jsonSkipSpaces rest with
      | ']' :: rest2 => some (.arr [], rest2)
      | rest2 => jsonParseElems fuel rest2 []
    | cs2 => (parseSignedDecimal cs2).map fun r => (.num r.1, r.2)

/-- The elements of a JSON array after its `[`. -/
def jsonParseElems : ℕ → List Char → List JsVal → Option (JsVal × List Char)
  | 0, _, _ => none
  | fuel + 1, cs, acc =>
    match jsonParseVal fuel cs with
    | none => none
    | some (v, rest) =>
      match jsonSkipSpaces rest with
      | ',' :: rest2 => jsonParseElems fuel rest2 (v :: acc)
      | ']' :: rest2 => some (.arr (v :: acc).reverse, rest2)
      | _ => none

end

/-- Model of host `JSON.parse(s)`: `none` is a thrown `SyntaxError`. -/
def jsonParse (s : String) : Option JsVal :=
  match jsonParseVal (s.length + 1) s.data with
  | some (v, rest) => if jsonSkipSpaces rest = [] then some v else none
  | none => none

/-- `if (val === 'false') val = false;` (Framework.js line 485). -/
def convertFalseStep : JsVal → JsVal
  | .str s => if s = "false" then .bool false else .str s
  | v => v

/-- `if (val === 'true') val = true;` (Framework.js line 486). -/
def convertTrueStep : JsVal → JsVal
  | .str s => if s = "true" then .bool true else .str s
  | v => v

/-- `isFinite(val)` on the values that can reach the number check: a string
is finite when the whole string denotes a finite number, and a boolean
coerces to `0`/`1`, both finite. -/
def jsValIsFiniteNumber : JsVal → Bool
  | .str s => (jsStringToFiniteNumber s).isSome
  | .bool _ => true
  | .num _ => true
  | _ => false

/-- `parseFloat(val)`: the argument is coerced to a string first, so
`parseFloat(true)` / `parseFloat(false)` are `NaN`. -/
def jsValParseFloat : JsVal → Option ℚ
  | .str s => jsParseFloat s
  | .bool _ => none
  | .num q => some q
  | _ => none

/-- `if (isFinite(val) && !isNaN(parseFloat(val))) val = parseFloat(val);`
(Framework.js lines 489-491). -/
def convertNumberStep (v : JsVal) : JsVal :=
  if jsValIsFiniteNumber v then
    match jsValParseFloat v with
    | some q => .num q
    | none => v
  else v

/-- `if (typeof val === 'string' && val.trim().charAt(0) === '[') val =
JSON.parse(val);` (Framework.js lines 494-496); a failed parse throws. -/
def convertArrayStep (v : JsVal) : Except String JsVal :=
  match v with
  | .str s =>
    if (JsStr.trim s).data.head? = some '[' then
      match jsonParse s with
      | some j => .ok j
      | none => .error "SyntaxError: JSON.parse"
    else .ok (.str s)
  | v => .ok v

/-- The attribute-string conversion performed by `getIndividualOptions`
(Framework.js lines 480-504) on a present, non-empty
`data-tippy-*` attribute value: the four sequential `if` statements applied
to the string. -/
def convertAttributeValue (s : String) : Except String JsVal :=
  convertArrayStep (convertNumberStep (convertTrueStep (convertFalseStep (.str s))))

/-- The conversion table exactly as the claim words it: literal
`"true"`/`"false"` become booleans; a string parseable as a finite number
becomes **that** number (the value `Number(s)` denotes); a string whose
first non-space character is `[` becomes the parsed array; any other string
stays a string.  The code refutes this reading on hex strings: see the
counterexample at `"0x10"`, where the code stores `parseFloat`'s prefix
value `0` while "that number" is `16`. -/
def convertAttributeValueSpec (s : String) : Except String JsVal :=
  if s = "true" then .ok (.bool true)
  else if s = "false" then .ok (.bool false)
  else
    match jsStringToFiniteNumber s with
    | some q => .ok (.num q)
    | none =>
      if (JsStr.trim s).data.head? = some '[' then
        match jsonParse s with
        | some j => .ok j
        | none => .error "SyntaxError: JSON.parse"
      else .ok (.str s)

/-- The amended conversion table: the numeric branch fires only when both
`Number(s)` is finite and `parseFloat(s)` reads a number, and it stores the
`parseFloat` value — for every decimal form that is the string's own value,
but `"0x10"` stores `0`. -/
def convertAttributeValueAmended (s : String) : Except String JsVal :=
  if s = "true" then .ok (.bool true)
  else if s = "false" then .ok (.bool false)
  else
    match jsStringToFiniteNumber s, jsParseFloat s with
    | some _, some q => .ok (.num q)
    | _, _ =>
      if (JsStr.trim s).data.head? = some '[' then
        match jsonParse s with
        | some j => .ok j
        | none => .error "SyntaxError: JSON.parse"
      else .ok (.str s)

/-- The per-key attribute conversion of the v3 `getDataAttributeOptions`
(src/src/js/reference.js lines 10-32, identical in src/unnamed/part_004
lines 25-47): the attribute string is trimmed (`(... || '').trim()`); a
falsy result adds nothing; the `content` key keeps the trimmed string
as-is; every other key is `JSON.parse`d with the trimmed string as the
fallback when parsing throws. -/
def getDataAttributeOption (key valueAsString : String) : Option JsVal :=
  let v := JsStr.trim valueAsString
  if v = "" then none
  else if key = "content" then some (.str v)
  else
    match jsonParse v with
    | some j => some j
    | none => some (.str v)

end Convert

namespace VirtualRef

/-- The property names of `Object.prototype`, the prototype of the object
literals the polyfill stores `attributes` and `classNames` in.  The `in`
operator and property reads traverse the prototype chain, so these names
behave specially; `__proto__` is an accessor there. -/
def objectPrototypeKeys : List String :=
  ["constructor", "hasOwnProperty", "isPrototypeOf", "propertyIsEnumerable",
   "toLocaleString", "toString", "valueOf", "__proto__",
   "__defineGetter__", "__defineSetter__", "__lookupGetter__",
   "__lookupSetter__"]

/-- Overwrite-or-append on the own string-keyed properties of an object
(association list in property order). -/
def attrSetOwn : List (String × String) → String → String → List (String × String)
  | [], k, v => [(k, v)]
  | kv :: rest, k, v =>
    if kv.1 = k then (k, v) :: rest else kv :: attrSetOwn rest k v

/-- Assignment `obj[k] = v` with a string value on an object literal:
assigning through the key `__proto__` invokes the inherited
`Object.prototype.__proto__` setter, which ignores a non-object value — a
silent no-op that creates no own property; every other key becomes (or
overwrites) an own property. -/
def attrSet (m : List (String × String)) (k v : String) :
    List (String × String) :=
  if k = "__proto__" then m else attrSetOwn m k v

/-- What a property read finds: an own string property, or a value
inherited from `Object.prototype` (a function or the prototype object). -/
inductive PropVal where
  | str (s : String)
  | inherited (k : String)
deriving DecidableEq, Repr

/-- Property read `obj[k]` (`undefined` is `none`): the own property if
present, else the `Object.prototype` member of that name, else nothing. -/
def attrGet (m : List (String × String)) (k : String) : Option PropVal :=
  match m.find? fun kv => kv.1 = k with
  | some kv => some (.str kv.2)
  | none =>
    if objectPrototypeKeys.contains k then some (.inherited k) else none

/-- `delete obj[k]` — removes only an own property; the prototype is
untouched. -/
def attrDelete (m : List (String × String)) (k : String) :
    List (String × String) :=
  m.filter fun kv => kv.1 ≠ k

/-- `k in obj`: own properties or the prototype chain
(`Object.prototype` for an object literal). -/
def attrHas (m : List (String × String)) (k : String) : Bool :=
  (m.any fun kv => kv.1 = k) || objectPrototypeKeys.contains k

/-- Own-key insert for `classNames[key] = true` (insertion order). -/
def classAddOwn : List String → String → List String
  | [], k => [k]
  | c :: rest, k => if c = k then c :: rest else c :: classAddOwn rest k

/-- `classNames[key] = true` on an object literal: like `attrSet`, the
`__proto__` accessor swallows the non-object value `true`, a silent no-op;
every other key becomes an own property. -/
def classAdd (cl : List String) (k : String) : List String :=
  if k = "__proto__" then cl else classAddOwn cl k

/-- `delete classNames[key]` — own properties only. -/
def classRemove (cl : List String) (k : String) : List String :=
  cl.filter (· ≠ k)

/-- `key in classNames`: own keys or the prototype chain. -/
def classContains (cl : List String) (k : String) : Bool :=
  cl.any (· = k) || objectPrototypeKeys.contains k

/-- A virtual reference: the plain object's `attributes` bag, its
`classList.classNames` bag, and the `isVirtual` marker. -/
structure VRef where
  attributes : List (String × String) := []
  classNames : List String := []
  isVirtual : Bool := false
deriving DecidableEq, Repr

/-- `polyfillElementPrototypeProperties(virtualReference)`
(src/src/js/reference.js lines 39-74, identical in src/unnamed/part_004):
mutates the plain object, adding `isVirtual = true`, the attribute methods
over `virtualReference.attributes`, and the `classList` object. -/
def polyfillElementPrototypeProperties (vr : VRef) : VRef :=
  { vr with isVirtual := true }

/-- `setAttribute(key, value)` of the reference.js polyfill. -/
def VRef.setAttribute (vr : VRef) (k v : String) : VRef :=
  { vr with attributes := attrSet vr.attributes k v }

/-- `getAttribute(key)` of the reference.js polyfill
(`virtualReference.attributes[key]`). -/
def VRef.getAttribute (vr : VRef) (k : String) : Option PropVal :=
  attrGet vr.attributes k

/-- `removeAttribute(key)` of the reference.js polyfill. -/
def VRef.removeAttribute (vr : VRef) (k : String) : VRef :=
  { vr with attributes := attrDelete vr.attributes k }

/-- `hasAttribute(key)` of the reference.js polyfill. -/
def VRef.hasAttribute (vr : VRef) (k : String) : Bool :=
  attrHas vr.attributes k

/-- `classList.add(key)` of the reference.js polyfill. -/
def VRef.classListAdd (vr : VRef) (k : String) : VRef :=
  { vr with classNames := classAdd vr.classNames k }

/-- `classList.remove(key)` of the reference.js polyfill. -/
def VRef.classListRemove (vr : VRef) (k : String) : VRef :=
  { vr with classNames := classRemove vr.classNames k }

/-- `classList.contains(key)` of the reference.js polyfill. -/
def VRef.classListContains (vr : VRef) (k : String) : Bool :=
  classContains vr.classNames k

/-- The identifiers in scope inside `polyfillVirtualReferenceProps`
(src/src/js/utils.js lines 298-324): the parameter `virtualReference` and
the local `reference` object being built.  The body of the `setAttribute` it
installs is `out.attributes[key] = value`, and `out` is not among them. -/
def utilsPolyfillScopeNames : List String :=
  ["virtualReference", "reference"]

/-- A thrown JavaScript error. -/
inductive JsError where
  | referenceError (ident : String)
deriving DecidableEq, Repr

/-- `setAttribute: (key, value) => { out.attributes[key] = value }` from
`polyfillVirtualReferenceProps` (src/src/js/utils.js lines 302-304):
evaluating the free identifier `out` resolves it against the enclosing
scopes; an identifier bound in no scope throws a `ReferenceError` before
any assignment happens. -/
def utilsPolyfillSetAttribute (attrs : List (String × String))
    (key value : String) : Except JsError (List (String × String)) :=
  if utilsPolyfillScopeNames.contains "out" then
    .ok (attrSet attrs key value)
  else .error (.referenceError "out")

end VirtualRef

/-! ## Theorems -/

namespace TippyV2

/-- C1: with a non-zero delay-in, `request-show` (`_enter`) immediately
followed by `request-hide` (`_leave`) leaves the instance hidden
(`state.visible` stays `false`), the pending show timer is cancelled, neither
call fires a hook, and the cancelled timer's `show()` callback never fires
(the timer-fire step is a no-op). -/
theorem enter_then_leave_cancels_show_timer (u : Bool) (t : Instance)
    (hvis : t.state.visible = false) (hdelay : t.options.delay.fst ≠ 0) :
    (leave (enter u t).1).1.state.visible = false ∧
    (leave (enter u t).1).1.showTimeout = false ∧
    (enter u t).2 = [] ∧ (leave (enter u t).1).2 = [] ∧
    fireShowTimeout (leave (enter u t).1).1 = ((leave (enter u t).1).1, []) := by
  unfold enter
  simp only [clearDelayTimeouts, hvis, Bool.false_eq_true, if_false]
  split
  · simp_all [leave, clearDelayTimeouts, fireShowTimeout, hdelay]
  · simp_all [leave, clearDelayTimeouts, fireShowTimeout, hdelay]

/-- C1 witness: the theorem applied to the concrete `delayedInstance`. -/
theorem enter_then_leave_cancels_show_timer_witness :
    delayedInstance.state.visible = false ∧
    delayedInstance.options.delay.fst ≠ 0 ∧
    ((leave (enter false delayedInstance).1).1.state.visible = false ∧
     (leave (enter false delayedInstance).1).1.showTimeout = false ∧
     fireShowTimeout (leave (enter false delayedInstance).1).1 =
       ((leave (enter false delayedInstance).1).1, [])) :=
  ⟨by decide, by decide,
   let h := enter_then_leave_cancels_show_timer false delayedInstance
     (by decide) (by decide)
   ⟨h.1, h.2.1, h.2.2.2.2⟩⟩

/-- C2 counterexample: for the visible-but-disabled instance, `destroy()`
does not run the hide path — the `onHide` hook is never invoked — because
`hide()` returns early for a disabled instance; yet the claim quantifies over
every currently visible instance. -/
theorem destroy_visible_disabled_skips_onHide :
    visibleDisabledInstance.state.visible = true ∧
    visibleDisabledInstance.state.destroyed = false ∧
    Ev.onHide ∉ (destroy visibleDisabledInstance).2 ∧
    (destroy visibleDisabledInstance).1.state.destroyed = true := by
  decide

/-- C2 (amended): for every instance that is visible, enabled and not yet
destroyed, `destroy()` synchronously runs the hide path first (the `onHide`
hook fires) and only afterwards sets `state.destroyed`; and `destroy()` is
idempotent — on an already-destroyed instance it changes nothing. -/
theorem destroy_visible_enabled_hides_then_destroys (t : Instance)
    (hd : t.state.destroyed = false) (hv : t.state.visible = true)
    (he : t.state.enabled = true) :
    (destroy t).2 = [Ev.onHide, Ev.destroyedSet] ∧
    (destroy t).1.state.destroyed = true ∧
    (destroy t).1.state.visible = false ∧
    (∀ t' : Instance, t'.state.destroyed = true → destroy t' = (t', [])) := by
  refine ⟨?_, ?_, ?_, ?_⟩ <;>
    simp_all [destroy, hide]

/-- C2 witness: the amended theorem applied to a concrete visible, enabled
instance; the second `destroy()` call leaves the destroyed instance
unchanged. -/
theorem destroy_visible_enabled_hides_then_destroys_witness :
    (destroy { state := { visible := true } }).2 = [Ev.onHide, Ev.destroyedSet] ∧
    destroy (destroy { state := { visible := true } }).1 =
      ((destroy { state := { visible := true } }).1, []) := by
  have h := destroy_visible_enabled_hides_then_destroys
    { state := { visible := true } } (by decide) (by decide) (by decide)
  exact ⟨h.1, h.2.2.2 _ h.2.1⟩

/-- C4 counterexample: for the disabled instance with a detached non-virtual
reference, `show()` returns at its enabled-guard without self-destroying, so
`state.destroyed` stays `false`; yet the claim quantifies over every
non-virtual instance with a detached reference. -/
theorem show_detached_disabled_does_not_destroy :
    detachedDisabledInstance.referenceIsVirtual = false ∧
    detachedDisabledInstance.referenceAttached = false ∧
    (show' detachedDisabledInstance).1.state.destroyed = false := by
  decide

/-- C4 (amended): for every enabled, not-yet-destroyed, non-virtual instance
whose reference is detached from the document (and that is not stopped by the
`dynamicTitle` empty-title guard), `show()` does not show and raises nothing:
it calls `destroy()` instead, leaving `state.destroyed = true` and
`state.visible = false`, and the `onShow` hook never fires. -/
theorem show_detached_reference_destroys (t : Instance)
    (hd : t.state.destroyed = false) (he : t.state.enabled = true)
    (hdt : t.options.dynamicTitle = false ∨ t.referenceHasOriginalTitle = true)
    (hvirt : t.referenceIsVirtual = false) (hatt : t.referenceAttached = false) :
    (show' t).1.state.destroyed = true ∧
    (show' t).1.state.visible = false ∧
    Ev.onShow ∉ (show' t).2 := by
  rcases hdt with hdt | hdt <;>
    rcases hv : t.state.visible <;>
      simp_all [show', destroy, hide]

/-- C4 witness: the amended theorem applied to a concrete enabled instance
with a detached reference. -/
theorem show_detached_reference_destroys_witness :
    ((show' { referenceAttached := false : Instance }).1.state.destroyed = true ∧
     (show' { referenceAttached := false : Instance }).1.state.visible = false ∧
     Ev.onShow ∉ (show' { referenceAttached := false : Instance }).2) :=
  show_detached_reference_destroys { referenceAttached := false }
    (by decide) (by decide) (Or.inl (by decide)) (by decide) (by decide)

end TippyV2

namespace TippyV3

/-- C3: whenever the caller-supplied options object contains a key that is
not among the recognized default option keys, the factory throws a
configuration error, so the whole Collection creation is aborted and no
Collection (hence no Instance) exists afterwards. -/
theorem tippy_unknown_option_aborts (targets : Targets) (one : Bool)
    (supplied : List (String × String))
    (h : ∃ kv ∈ supplied, kv.1 ∉ DefaultsKeys) :
    ∃ msg, tippy targets supplied one = .error msg := by
  unfold tippy
  rcases hfind : supplied.find? (fun kv => decide (kv.1 ∉ DefaultsKeys)) with _ | kv
  · rw [List.find?_eq_none] at hfind
    obtain ⟨kv, hmem, hbad⟩ := h
    exact absurd (by simpa using hbad) (by simpa using hfind kv hmem)
  · rw [hfind]
    exact ⟨_, rfl⟩

/-- C3 witness: supplying the misspelled key `interacitve` aborts creation
with an error and produces no collection. -/
theorem tippy_unknown_option_aborts_witness :
    (∃ kv ∈ [("interacitve", "true")], kv.1 ∉ DefaultsKeys) ∧
    ∃ msg, tippy (.element 1) [("interacitve", "true")] false = .error msg :=
  ⟨by decide,
   tippy_unknown_option_aborts (.element 1) false [("interacitve", "true")]
     (by decide)⟩

end TippyV3

namespace Triggers

/-- C6 counterexample: in direct mode, the missing `break` in
`addEventListeners` (utils.js) makes the `mouseenter` case fall through into
the `focus` case, so trigger `"mouseenter"` also registers the blur hide
handler — a handler belonging to the `focus` trigger — and registers no
touchstart/touchend pair at all. -/
theorem mouseenter_fallthrough_registers_blur :
    ("blur", UtilsHandler.onBlur) ∈ addEventListenersRegs false false "mouseenter" ∧
    ∀ p ∈ addEventListenersRegs false false "mouseenter",
      p.1 ≠ "touchstart" ∧ p.1 ≠ "touchend" := by
  decide

/-- C6 (amended): per trigger name in direct mode — `"manual"` registers no
listeners in either implementation; in the Framework.js `createTrigger`,
`"mouseenter"` registers exactly the show-trigger handler, the touch pair
when (and only when) touch is supported and touch-hold configured, and one
mouseleave hide handler, `"focus"` registers exactly the show-trigger
handler and one blur hide handler, and neither registers a handler of the
other trigger; in the utils.js `addEventListeners`, `"mouseenter"`
additionally registers the focus-trigger's blur hide handler (switch
fallthrough) and never a touch pair, and `"focus"` registers the
show-trigger handler plus the blur hide handler. -/
theorem trigger_listener_registration (supportsTouch touchHold isIE : Bool) :
    createTrigger supportsTouch "manual" touchHold = [] ∧
    addEventListenersRegs isIE false "manual" = [] ∧
    createTrigger supportsTouch "mouseenter" touchHold =
      [("mouseenter", V2Handler.handleTrigger)]
      ++ (if supportsTouch && touchHold then
            [("touchstart", V2Handler.handleTrigger),
             ("touchend", V2Handler.handleMouseleave)]
          else [])
      ++ [("mouseleave", V2Handler.handleMouseleave)] ∧
    createTrigger supportsTouch "focus" touchHold =
      [("focus", V2Handler.handleTrigger), ("blur", V2Handler.handleBlur)] ∧
    (∀ p ∈ createTrigger supportsTouch "mouseenter" touchHold,
       p.2 ≠ V2Handler.handleBlur) ∧
    (∀ p ∈ createTrigger supportsTouch "focus" touchHold,
       p.2 ≠ V2Handler.handleMouseleave) ∧
    addEventListenersRegs isIE false "mouseenter" =
      [("mouseenter", UtilsHandler.onTrigger),
       ("mouseleave", UtilsHandler.onMouseLeave),
       (blurEventName isIE, UtilsHandler.onBlur)] ∧
    addEventListenersRegs isIE false "focus" =
      [("focus", UtilsHandler.onTrigger),
       (blurEventName isIE, UtilsHandler.onBlur)] := by
  cases supportsTouch <;> cases touchHold <;> cases isIE <;> decide

end Triggers

namespace Border

/-- A property holds for some side exactly when it holds for one of the
four. -/
theorem side_exists_iff (P : Side → Prop) :
    (∃ s : Side, P s) ↔ P .top ∨ P .bottom ∨ P .left ∨ P .right := by
  constructor
  · rintro ⟨s, hs⟩
    cases s <;> tauto
  · rintro (h | h | h | h) <;> exact ⟨_, h⟩

/-- C7: for every cursor position, bounding box, border width and distance,
and every core placement, the predicate is `true` iff on some side the
cursor's gap beyond the box exceeds that side's threshold — the plain border
width on three sides, border + distance on the side matching the placement —
and with no placement assigned the predicate is `true`. -/
theorem cursor_outside_border_iff (p : Side) (clientX clientY : ℚ)
    (rect : ClientRect) (b d : ℚ) :
    (cursorIsOutsideInteractiveBorder (some p.str) clientX clientY rect b d = true ↔
      ∃ s : Side, sideThreshold p s b d < cursorGapBeyond s clientX clientY rect) ∧
    cursorIsOutsideInteractiveBorder none clientX clientY rect b d = true := by
  refine ⟨?_, rfl⟩
  cases p <;>
    simp [cursorIsOutsideInteractiveBorder, getPopperPlacement, JsStr.split,
      JsStr.splitAux, Side.str, side_exists_iff, sideThreshold, cursorGapBeyond,
      gt_iff_lt] <;>
    tauto

end Border

namespace FollowCursor

/-- C8 counterexample: with placement `right` the horizontal position is
never clamped — the cursor at page-x 2000 on a 1000-wide page puts the
floating element at x = 2005, far beyond
`pageWidth - PADDING - floatingWidth`. -/
theorem followCursor_right_unclamped :
    (followCursorXY rightPlacementMove).1 = some 2005 ∧
    rightPlacementMove.pageWidth - PADDING -
      2 * rightPlacementMove.halfPopperWidth < 2005 := by
  constructor
  · simp [followCursorXY, rightPlacementMove]
    norm_num
  · norm_num [rightPlacementMove, PADDING]

/-- C8 (amended): for a vertical core placement (`top` or `bottom`) and a
page at least `2 * PADDING + 2 * halfPopperWidth` wide, the horizontal
position computed for a `mousemove` always lies within
`[PADDING, pageWidth - PADDING - 2 * halfPopperWidth]` (the code works with
`2 * Math.round(width / 2)` as the floating element's width). -/
theorem followCursor_x_within_bounds (m : MoveInput)
    (hp : m.placement = "top" ∨ m.placement = "bottom")
    (hW : 2 * PADDING + 2 * m.halfPopperWidth ≤ m.pageWidth) :
    ∃ x, (followCursorXY m).1 = some x ∧
      PADDING ≤ x ∧ x ≤ m.pageWidth - PADDING - 2 * m.halfPopperWidth := by
  simp only [PADDING] at hW
  rcases hp with h | h <;>
    · simp [followCursorXY, h, PADDING]
      split_ifs with h1 h2 <;>
        exact ⟨_, rfl, by constructor <;> linarith⟩

/-- C8 witness: the amended theorem applied to the concrete top-placed
instance in the middle of a 1000px page. -/
theorem followCursor_x_within_bounds_witness :
    ∃ x, (followCursorXY topPlacementMove).1 = some x ∧
      PADDING ≤ x ∧
      x ≤ topPlacementMove.pageWidth - PADDING -
            2 * topPlacementMove.halfPopperWidth :=
  followCursor_x_within_bounds topPlacementMove (Or.inl rfl)
    (by norm_num [topPlacementMove, PADDING])

end FollowCursor

namespace Convert

/-- C5 counterexample: the attribute string `"0x10"` is parseable as the
finite number 16 (`Number("0x10") === 16`, so it passes the `isFinite`
gate), yet the conversion stores `parseFloat`'s prefix value 0 — the claim's
"maps to that number" fails at `"0x10"`. -/
theorem convertAttributeValue_hex_counterexample :
    jsStringToFiniteNumber "0x10" = some 16 ∧
    convertAttributeValue "0x10" = .ok (.num 0) ∧
    convertAttributeValueSpec "0x10" = .ok (.num 16) ∧
    (0 : ℚ) ≠ 16 := by
  refine ⟨?_, ?_, ?_, by norm_num⟩ <;>
    · simp [jsStringToFiniteNumber, convertAttributeValue,
        convertAttributeValueSpec, convertFalseStep, convertTrueStep,
        convertNumberStep, convertArrayStep, jsValIsFiniteNumber,
        jsValParseFloat, jsParseFloat, parseSignedDecimal,
        parseUnsignedDecimal, natOfDigits, natOfHexDigits, hexDigitValue,
        isHexDigitChar, JsStr.trim]
      try norm_num

/-- C5 (amended): on every non-empty attribute string, the Framework.js
conversion is — `"true"`/`"false"` to booleans; when `Number(s)` is finite
and `parseFloat(s)` reads a number, the `parseFloat` value (the string's
own value for decimal forms, but `0` for `"0x10"`); else a `[`-prefixed
string to the parsed array; any other string stays a string.  The v3
`getDataAttributeOptions` instead keeps the `content` key's non-empty
trimmed value a string (even `"true"`) and `JSON.parse`s every other key's
value, falling back to the trimmed string when parsing throws. -/
theorem convertAttributeValue_amended (s : String) (hne : s ≠ "") :
    convertAttributeValue s = convertAttributeValueAmended s ∧
    (∀ v : String, JsStr.trim v ≠ "" →
      getDataAttributeOption "content" v = some (.str (JsStr.trim v))) ∧
    (∀ k v : String, k ≠ "content" → JsStr.trim v ≠ "" →
      getDataAttributeOption k v =
        some ((jsonParse (JsStr.trim v)).getD (.str (JsStr.trim v)))) := by
  refine ⟨?_, ?_, ?_⟩
  · by_cases ht : s = "true"
    · subst ht
      rfl
    · by_cases hf : s = "false"
      · subst hf
        rfl
      · unfold convertAttributeValue convertAttributeValueAmended
        cases hq : jsStringToFiniteNumber s <;>
          cases hpf : jsParseFloat s <;>
            simp [convertFalseStep, convertTrueStep, convertNumberStep,
              jsValIsFiniteNumber, jsValParseFloat, hq, hpf,
              convertArrayStep, ht, hf]
  · intro v hv
    simp [getDataAttributeOption, hv]
  · intro k v hk hv
    cases hj : jsonParse (JsStr.trim v) <;>
      simp [getDataAttributeOption, hk, hv, hj]

/-- C5 witness: the amended theorem applied to the concrete attribute
string `"42"`. -/
theorem convertAttributeValue_amended_witness :
    ("42" : String) ≠ "" ∧
    convertAttributeValue "42" = convertAttributeValueAmended "42" :=
  ⟨by decide, (convertAttributeValue_amended "42" (by decide)).1⟩

end Convert

namespace VirtualRef

/-- After `obj[k] = v` with `k` not `__proto__`, reading `obj[k]` yields
the own property `v`. -/
theorem attrGet_attrSet_self (m : List (String × String)) (k v : String)
    (hk : k ≠ "__proto__") :
    attrGet (attrSet m k v) k = some (.str v) := by
  rw [attrSet, if_neg hk]
  induction m with
  | nil => simp [attrSetOwn, attrGet]
  | cons kv rest ih =>
    by_cases h : kv.1 = k
    · simp [attrSetOwn, attrGet, h]
    · simpa [attrSetOwn, attrGet, h] using ih

/-- After `obj[k] = v` with `k` not `__proto__`, `k in obj` holds (as an
own property). -/
theorem attrHas_attrSet_self (m : List (String × String)) (k v : String)
    (hk : k ≠ "__proto__") :
    attrHas (attrSet m k v) k = true := by
  rw [attrSet, if_neg hk]
  rw [attrHas, Bool.or_eq_true]
  left
  induction m with
  | nil => simp [attrSetOwn]
  | cons kv rest ih =>
    by_cases h : kv.1 = k
    · simp [attrSetOwn, h]
    · simpa [attrSetOwn, h] using ih

/-- After `delete obj[k]`, `k in obj` fails exactly when `k` is not an
`Object.prototype` name. -/
theorem attrHas_attrDelete_self (m : List (String × String)) (k : String)
    (hk : k ∉ objectPrototypeKeys) :
    attrHas (attrDelete m k) k = false := by
  rw [attrHas, Bool.or_eq_false_iff]
  constructor
  · simp [attrDelete, List.any_eq_true, List.mem_filter]
  · simpa using hk

/-- After `classNames[k] = true` with `k` not `__proto__`,
`k in classNames` holds. -/
theorem classContains_classAdd_self (cl : List String) (k : String)
    (hk : k ≠ "__proto__") :
    classContains (classAdd cl k) k = true := by
  rw [classAdd, if_neg hk]
  rw [classContains, Bool.or_eq_true]
  left
  induction cl with
  | nil => simp [classAddOwn]
  | cons c rest ih =>
    by_cases h : c = k
    · simp [classAddOwn, h]
    · simpa [classAddOwn, h] using ih

/-- After `delete classNames[k]`, `k in classNames` fails exactly when `k`
is not an `Object.prototype` name. -/
theorem classContains_classRemove_self (cl : List String) (k : String)
    (hk : k ∉ objectPrototypeKeys) :
    classContains (classRemove cl k) k = false := by
  rw [classContains, Bool.or_eq_false_iff]
  constructor
  · simp [classRemove, List.any_eq_true, List.mem_filter]
  · simpa using hk

/-- C10 counterexample: the polyfill stores attributes and class names in
object literals and tests membership with `in`, which sees
`Object.prototype` — so after `removeAttribute("toString")`,
`hasAttribute("toString")` is still `true` (and likewise
`classList.remove`/`contains`), and `setAttribute("__proto__", v)` is
swallowed by the inherited accessor, so `getAttribute("__proto__")` does
not return `v`. -/
theorem virtual_reference_prototype_counterexample :
    (({} : VRef).removeAttribute "toString").hasAttribute "toString" = true ∧
    (({} : VRef).classListRemove "toString").classListContains "toString"
      = true ∧
    ¬ ((({} : VRef).setAttribute "__proto__" "x").getAttribute "__proto__"
        = some (.str "x")) := by
  decide

/-- C10 (amended): for every polyfilled virtual reference and every string
key that is not an `Object.prototype` property name (so in particular not
`"toString"` or the `__proto__` accessor), the round-trip laws hold:
set-then-get returns the value, set-then-has holds, remove-then-has fails,
add-then-contains holds, remove-then-contains fails; and for an
`Object.prototype` name, `in`-based membership stays `true` even right
after removal. -/
theorem virtual_reference_roundtrip_own_keys (vr : VRef) (k v : String)
    (hk : k ∉ objectPrototypeKeys) :
    (vr.setAttribute k v).getAttribute k = some (.str v) ∧
    (vr.setAttribute k v).hasAttribute k = true ∧
    (vr.removeAttribute k).hasAttribute k = false ∧
    (vr.classListAdd k).classListContains k = true ∧
    (vr.classListRemove k).classListContains k = false ∧
    (∀ (vr' : VRef) (p : String), p ∈ objectPrototypeKeys →
      (vr'.removeAttribute p).hasAttribute p = true) := by
  have hkp : k ≠ "__proto__" := fun h => hk (h ▸ by decide)
  refine ⟨attrGet_attrSet_self vr.attributes k v hkp,
    attrHas_attrSet_self vr.attributes k v hkp,
    attrHas_attrDelete_self vr.attributes k hk,
    classContains_classAdd_self vr.classNames k hkp,
    classContains_classRemove_self vr.classNames k hk, ?_⟩
  intro vr' p hp
  rw [VRef.hasAttribute, attrHas, Bool.or_eq_true]
  right
  simpa using hp

/-- C10 witness: the amended theorem applied to a concrete empty virtual
reference and the ordinary key `"data-tippy"`. -/
theorem virtual_reference_roundtrip_own_keys_witness :
    "data-tippy" ∉ objectPrototypeKeys ∧
    ((({} : VRef).setAttribute "data-tippy" "1").getAttribute "data-tippy"
      = some (.str "1") ∧
     (({} : VRef).removeAttribute "data-tippy").hasAttribute "data-tippy"
      = false) :=
  ⟨by decide,
   let h := virtual_reference_roundtrip_own_keys {} "data-tippy" "1"
     (by decide)
   ⟨h.1, h.2.2.1⟩⟩

/-- C9: the `setAttribute` installed by the utils.js
`polyfillVirtualReferenceProps` throws a `ReferenceError` on every call —
its body assigns through the identifier `out`, which is bound in no
enclosing scope — while the claim (and the parallel reference.js polyfill)
requires attribute operations that never raise. -/
theorem utilsPolyfill_setAttribute_raises (attrs : List (String × String))
    (key value : String) :
    utilsPolyfillSetAttribute attrs key value =
      .error (.referenceError "out") := rfl

end VirtualRef
